import Mathlib

/-!
Verification of the reliable-submission finality logic of an XRPL client
library (files `xrpl/asyncio/transaction/reliable_submission.py`,
`xrpl/asyncio/transaction/ledger.py`, `xrpl/models/requests/ledger_closed.py`).

The Python code is shallowly embedded:

* Python dict results become association lists of `String × Value`, with
  dict membership (`"validated" in result`), truthiness, and subscript
  access (raising `KeyError` on a missing key) embedded explicitly.
* Raised exceptions become `Except`-style error values
  (`PyError` = exception class + message string).
* The recursive polling function `_wait_for_final_transaction_outcome`
  becomes a fuel-indexed loop `waitLoop` over a trace of lookup responses
  and oracle heights (one trace entry per network call); the loop also
  counts the lookup and oracle calls it performs, so call-count
  properties of the spec can be stated.
* Collaborators whose code is outside the given sources (the `Response`
  model, `submit_transaction`, `get_latest_validated_ledger_sequence`,
  the model-construction `REQUIRED` machinery) are modelled from the
  spec; each such definition says so in its doc comment.
-/

namespace ReliableSubmission

/-- A Python value as it appears in the result dicts this code touches:
booleans (the `validated` flag), integers (ledger sequences), and strings
(engine result codes and messages). -/
inductive Value
  | bool (b : Bool)
  | int (n : Int)
  | str (s : String)
deriving DecidableEq, Repr

/-- Python `str(v)`, as used inside the f-strings of the source. -/
def pyStr : Value → String
  | .bool b => if b then "True" else "False"
  | .int n => toString n
  | .str s => s

/-- Python truthiness of a value, as used by `and result["validated"]`. -/
def truthy : Value → Bool
  | .bool b => b
  | .int n => n != 0
  | .str s => s != ""

/-- Exception classes relevant to this code. `xrplReliableSubmission`
embeds `XRPLReliableSubmissionException` (reliable_submission.py line 19);
`xrplRequestFailure` embeds `XRPLRequestFailureException`;
`xrplModel` embeds `XRPLModelException`; `keyError` and `typeError` are
the Python builtins; `otherClass` covers transport-level exception
classes raised by the network client. -/
inductive ExcClass
  | keyError
  | typeError
  | xrplReliableSubmission
  | xrplRequestFailure
  | xrplModel
  | otherClass (name : String)
deriving DecidableEq, Repr

/-- A raised Python exception: its class and its message. -/
structure PyError where
  cls : ExcClass
  msg : String
deriving DecidableEq, Repr

/-- A Python result dict, as a finite association list. -/
abbrev ResultDict := List (String × Value)

/-- First value bound to `k`, if any (Python dicts have unique keys, so
the first binding is the binding). -/
def dictGet? (d : ResultDict) (k : String) : Option Value :=
  match d with
  | [] => none
  | (k2, v) :: rest => if k2 = k then some v else dictGet? rest k

/-- Python subscript access `d[k]`: the value, or a raised `KeyError`. -/
def getItem (d : ResultDict) (k : String) : Except PyError Value :=
  match dictGet? d k with
  | some v => .ok v
  | none => .error ⟨.keyError, k⟩

/-- Python `int(...)`-compatible view of a value for an order comparison
with an integer: ints compare directly, bools coerce (True = 1, False = 0),
anything else raises `TypeError` at the comparison. -/
def asInt : Value → Except PyError Int
  | .int n => .ok n
  | .bool b => .ok (if b then 1 else 0)
  | .str _ => .error ⟨.typeError, "'>' not supported between instances of 'str' and 'int'"⟩

/-- Status of a response from the node. Modelled from the spec: the
network client "performs one typed request and returns a typed result or
signals a transport/protocol failure"; a returned response is either a
success or a node-reported error (the `Response` model itself is outside
the given sources). -/
inductive ResponseStatus
  | success
  | error
deriving DecidableEq, Repr

/-- A response from the node: its status and its result field mapping.
Modelled from the spec (the `Response` model is outside the given
sources): "a field mapping that may include a validated flag and an
expiry height". -/
structure Response where
  status : ResponseStatus
  result : ResultDict
deriving DecidableEq

/-- Modelled from the spec: `Response.is_successful()` reports whether
the node answered with a success rather than a node-level error. -/
def Response.is_successful (r : Response) : Bool :=
  r.status = ResponseStatus.success

/-- Modelled from the spec: the error value of
`XRPLRequestFailureException(result)` raised by `get_transaction_from_hash`
when the node's response is not successful (the exception class lives
outside the given sources); an infrastructure-level failure distinct from
the reliable-submission domain errors. -/
def requestFailureError (result : ResultDict) : PyError :=
  ⟨.xrplRequestFailure,
    "Request failed" ++ (match dictGet? result "error" with
      | some e => ", " ++ pyStr e
      | none => "")⟩

/-- Embeds `get_transaction_from_hash` (ledger.py lines 11-53) applied to
the raw outcome of the client's `request_impl` round trip for the `Tx`
request: a transport failure raised by the client propagates unchanged;
an unsuccessful response raises `XRPLRequestFailureException`; a
successful response is returned as is. (The `Tx` request construction
itself carries no logic relevant here: the hash is the only required
field and `binary`/`min_ledger`/`max_ledger` keep their defaults on the
resolver's call path.) -/
def get_transaction_from_hash (raw : Except PyError Response) : Except PyError Response :=
  match raw with
  | .error e => .error e
  | .ok response =>
    if !response.is_successful then .error (requestFailureError response.result)
    else .ok response

/-- Embeds line 43 of reliable_submission.py:
`"validated" in result and result["validated"]`. -/
def validatedCheck (result : ResultDict) : Bool :=
  match dictGet? result "validated" with
  | some v => truthy v
  | none => false

/-- The `XRPLReliableSubmissionException` message built at
reliable_submission.py lines 56-59 when the transaction's
`LastLedgerSequence` (held in `v`) has been passed by the latest
validated ledger sequence. -/
def expiredError (latest : Nat) (v : Value) : PyError :=
  ⟨.xrplReliableSubmission,
    "The latest ledger sequence " ++ toString latest ++
      " is greater than the last ledger sequence " ++ pyStr v ++
      " in the transaction."⟩

/-- The `XRPLReliableSubmissionException` message built at
reliable_submission.py lines 90-92 when the submit verdict is not
`tesSUCCESS`. -/
def rejectedError (code msgv : Value) : PyError :=
  ⟨.xrplReliableSubmission,
    "Transaction failed, " ++ pyStr code ++ ": " ++ pyStr msgv⟩

/-- Outcome of one run of the polling loop (or of the whole
orchestrator): the function returned a response, raised an exception, or
the modelling fuel ran out before the recursion terminated. -/
inductive PollOutcome
  | finished (r : Response)
  | raised (e : PyError)
  | outOfFuel
deriving DecidableEq

/-- Result of running the resolver: its outcome plus how many lookup
calls and how many oracle calls it issued. -/
structure WaitResult where
  outcome : PollOutcome
  lookupCalls : Nat
  oracleCalls : Nat
deriving DecidableEq

/-- Embeds `_wait_for_final_transaction_outcome` (reliable_submission.py
lines 25-59). `lookups n` is the raw client outcome of the n-th `Tx`
lookup round trip and `oracle n` the outcome of the n-th
`get_latest_validated_ledger_sequence` call (the latter is modelled from
the spec — "returns the latest validated ledger's sequence height" — as
its code is outside the given sources; a transport failure on either call
is an `Except.error`). `fuel` bounds the recursion depth of the
embedding only: one unit per recursive call of the Python function, with
`outOfFuel` marking a run that would recurse further. The `asyncio.sleep`
at line 34 has no observable effect here. Each iteration: one lookup
call; return the response if the result is validated (lines 43-45);
otherwise read `result["LastLedgerSequence"]` (line 47, `KeyError` if
absent); one oracle call (lines 48-50); recurse while
`last_ledger_sequence > latest_ledger_sequence` (lines 52-54), raising
the expiry error otherwise (lines 56-59). -/
def waitLoop (lookups : Nat → Except PyError Response) (oracle : Nat → Except PyError Nat) :
    Nat → Nat → Nat → WaitResult
  | 0, _, _ => ⟨.outOfFuel, 0, 0⟩
  | fuel + 1, li, oi =>
    match get_transaction_from_hash (lookups li) with
    | .error e => ⟨.raised e, 1, 0⟩
    | .ok transaction_response =>
      if validatedCheck transaction_response.result then
        ⟨.finished transaction_response, 1, 0⟩
      else
        match getItem transaction_response.result "LastLedgerSequence" with
        | .error e => ⟨.raised e, 1, 0⟩
        | .ok v =>
          match oracle oi with
          | .error e => ⟨.raised e, 1, 1⟩
          | .ok latest_ledger_sequence =>
            match asInt v with
            | .error e => ⟨.raised e, 1, 1⟩
            | .ok last_ledger_sequence =>
              if last_ledger_sequence > (latest_ledger_sequence : Int) then
                let w := waitLoop lookups oracle fuel (li + 1) (oi + 1)
                ⟨w.outcome, w.lookupCalls + 1, w.oracleCalls + 1⟩
              else
                ⟨.raised (expiredError latest_ledger_sequence v), 1, 1⟩

/-- The network-visible behaviour one run of `send_reliable_submission`
interacts with: the outcome of the single submit round trip (modelled
from the spec, as `submit_transaction` is outside the given sources: the
submit operation returns "a tagged verdict ... plus an advisory message
string", here inside the response's result dict, or fails at the
transport level), and the per-call lookup and oracle traces consumed by
the resolver. -/
structure RunBehavior where
  submit : Except PyError Response
  lookups : Nat → Except PyError Response
  oracle : Nat → Except PyError Nat

/-- Result of one run of `send_reliable_submission`: its outcome plus
how many submit, lookup and oracle calls it issued. -/
structure RunResult where
  outcome : PollOutcome
  submitCalls : Nat
  lookupCalls : Nat
  oracleCalls : Nat
deriving DecidableEq

/-- Embeds `send_reliable_submission` (reliable_submission.py lines
62-94): one submit call (line 85; `transaction.get_hash()` at line 84
only computes the polling key and is not network-visible); if
`result["engine_result"]` is not `"tesSUCCESS"`, raise the rejection
error built from the verdict code and `result["engine_result_message"]`
(lines 87-92) without invoking the resolver; otherwise delegate to
`_wait_for_final_transaction_outcome` (line 94). -/
def send_reliable_submission (b : RunBehavior) (fuel : Nat) : RunResult :=
  match b.submit with
  | .error e => ⟨.raised e, 1, 0, 0⟩
  | .ok submit_response =>
    match getItem submit_response.result "engine_result" with
    | .error e => ⟨.raised e, 1, 0, 0⟩
    | .ok engine_result =>
      if engine_result ≠ Value.str "tesSUCCESS" then
        match getItem submit_response.result "engine_result_message" with
        | .error e => ⟨.raised e, 1, 0, 0⟩
        | .ok result_message => ⟨.raised (rejectedError engine_result result_message), 1, 0, 0⟩
      else
        let w := waitLoop b.lookups b.oracle fuel 0 0
        ⟨w.outcome, 1, w.lookupCalls, w.oracleCalls⟩

/-- Field names of `LedgerClosed` that ledger_closed.py (lines 25-26)
marks with the `REQUIRED` sentinel: `ledger_hash: str = REQUIRED` and
`ledger_index: int = REQUIRED`. -/
def ledgerClosedRequiredFields : List String :=
  ["ledger_hash", "ledger_index"]

/-- Modelled from the spec: request models have "validation-only
construction rules" — constructing a request succeeds exactly when every
field the dataclass marks `REQUIRED` has been supplied by the caller
(the `REQUIRED` sentinel, `require_kwargs_on_init` and the base-model
validation live outside the given sources). For `LedgerClosed` the
required fields are `ledgerClosedRequiredFields`, read off the source. -/
def constructLedgerClosed (suppliedFields : List String) : Except PyError Unit :=
  if ledgerClosedRequiredFields.all (fun f => suppliedFields.contains f) then .ok ()
  else .error ⟨.xrplModel, "LedgerClosed: required field not set"⟩

/-- The three failure kinds of the spec's taxonomy a caller must be able
to tell apart. -/
inductive ErrorKind
  | submissionRejected
  | resolutionExpired
  | infrastructure
deriving DecidableEq, Repr

/-- A caller-side discriminator witnessing that the failure kinds are
distinguishable from the raised error value alone: infrastructure
failures are not of the `XRPLReliableSubmissionException` class, and
within that class the two domain errors already differ at the second
character of their messages ("Transaction failed, ..." versus "The
latest ledger sequence ..."). -/
def classifyError (e : PyError) : ErrorKind :=
  if e.cls = ExcClass.xrplReliableSubmission then
    if e.msg.data[1]? = some 'r' then ErrorKind.submissionRejected
    else ErrorKind.resolutionExpired
  else ErrorKind.infrastructure

/-- A lookup response for a transaction the node knows but has not
validated: no `validated` flag, `LastLedgerSequence` present. -/
def pendingResponse (lls : Int) : Response :=
  ⟨.success, [("LastLedgerSequence", Value.int lls)]⟩

/-- Modelled from the spec: the lookup response for a transaction not
yet known to the node — "absence of the transaction is a valid,
non-error outcome (not-yet-known), distinguished from a transport
failure" — so a non-error response that reports no data for the
transaction: no `validated` flag and no `LastLedgerSequence`. -/
def notFoundResponse : Response :=
  ⟨.success, []⟩

/-- A lookup response for a transaction included in a validated ledger
(expiry height 50, matching the spec's end-to-end scenario). -/
def scenarioValidatedResponse : Response :=
  ⟨.success, [("validated", Value.bool true), ("LastLedgerSequence", Value.int 50)]⟩

/-- A lookup trace that always answers with the same pending response. -/
def pendingTrace (lls : Int) : Nat → Except PyError Response :=
  fun _ => .ok (pendingResponse lls)

/-- An oracle trace that always reports the same height. -/
def constOracle (h : Nat) : Nat → Except PyError Nat :=
  fun _ => .ok h

/-- A submit response whose verdict tag is the canonical accepted code. -/
def okSubmitResponse : Response :=
  ⟨.success, [("engine_result", Value.str "tesSUCCESS"),
    ("engine_result_message", Value.str "The transaction was applied.")]⟩

/-- A submit response carrying a rejection verdict. -/
def rejSubmitResponse : Response :=
  ⟨.success, [("engine_result", Value.str "tecUNFUNDED_PAYMENT"),
    ("engine_result_message", Value.str "Insufficient XRP balance to send.")]⟩

/-- A concrete transport failure raised at the network-client boundary. -/
def transportError : PyError :=
  ⟨.otherClass "ConnectionError", "connection refused"⟩

/-- The lookup trace of the spec's end-to-end scenario: not-found,
not-found, then validated. -/
def scenarioLookups : Nat → Except PyError Response
  | 0 => .ok notFoundResponse
  | 1 => .ok notFoundResponse
  | _ => .ok scenarioValidatedResponse

/-- The oracle trace of the spec's end-to-end scenario: heights 10
then 20. -/
def scenarioOracle : Nat → Except PyError Nat
  | 0 => .ok 10
  | _ => .ok 20

/-- An oracle trace reporting the strictly increasing heights
50, 51, 52, ... -/
def risingOracle : Nat → Except PyError Nat :=
  fun n => .ok (50 + n)

/-- A run whose submit is rejected; the lookup and oracle traces are
present but must never be consulted. -/
def rejectedRun : RunBehavior :=
  ⟨.ok rejSubmitResponse, pendingTrace 1, constOracle 1⟩

/-- A run whose submit is accepted and whose first lookup already
reports the transaction validated. -/
def validatedRun : RunBehavior :=
  ⟨.ok okSubmitResponse, fun _ => .ok scenarioValidatedResponse, constOracle 10⟩

/-- A run whose submit round trip fails at the transport level. -/
def submitFailRun : RunBehavior :=
  ⟨.error transportError, pendingTrace 1, constOracle 1⟩

section StepLemmas

variable {lookups : Nat → Except PyError Response} {oracle : Nat → Except PyError Nat}

/-- One non-terminal decision point of the loop: a successful,
non-validated lookup response whose `LastLedgerSequence` compares as the
integer `lls` against the oracle height `latest` either re-enters the
loop (strictly greater) or raises the expiry error (otherwise). -/
theorem waitLoop_step (fuel li oi : Nat) (r : Response) (v : Value) (lls : Int) (latest : Nat)
    (hr : lookups li = .ok r) (hs : r.is_successful = true)
    (hv : validatedCheck r.result = false)
    (hlls : getItem r.result "LastLedgerSequence" = .ok v)
    (hint : asInt v = .ok lls)
    (ho : oracle oi = .ok latest) :
    waitLoop lookups oracle (fuel + 1) li oi =
      if lls > (latest : Int) then
        let w := waitLoop lookups oracle fuel (li + 1) (oi + 1)
        ⟨w.outcome, w.lookupCalls + 1, w.oracleCalls + 1⟩
      else ⟨.raised (expiredError latest v), 1, 1⟩ := by
  simp only [waitLoop, hr, get_transaction_from_hash, hs, Bool.not_true, Bool.false_eq_true,
    if_false, hv, hlls, ho, hint]

/-- A validated lookup response ends the loop at once with the full
response and no oracle call. -/
theorem waitLoop_validated (fuel li oi : Nat) (r : Response)
    (hr : lookups li = .ok r) (hs : r.is_successful = true)
    (hv : validatedCheck r.result = true) :
    waitLoop lookups oracle (fuel + 1) li oi = ⟨.finished r, 1, 0⟩ := by
  simp only [waitLoop, hr, get_transaction_from_hash, hs, Bool.not_true, Bool.false_eq_true,
    if_false, hv, if_true]

/-- A transport failure on the lookup call propagates unchanged. -/
theorem waitLoop_lookupError (fuel li oi : Nat) (e : PyError)
    (hr : lookups li = .error e) :
    waitLoop lookups oracle (fuel + 1) li oi = ⟨.raised e, 1, 0⟩ := by
  simp only [waitLoop, hr, get_transaction_from_hash]

/-- A successful but non-validated response with no `LastLedgerSequence`
key raises `KeyError` before any oracle call. -/
theorem waitLoop_keyError (fuel li oi : Nat) (r : Response)
    (hr : lookups li = .ok r) (hs : r.is_successful = true)
    (hv : validatedCheck r.result = false)
    (hmiss : dictGet? r.result "LastLedgerSequence" = none) :
    waitLoop lookups oracle (fuel + 1) li oi =
      ⟨.raised ⟨.keyError, "LastLedgerSequence"⟩, 1, 0⟩ := by
  simp only [waitLoop, hr, get_transaction_from_hash, hs, Bool.not_true, Bool.false_eq_true,
    if_false, hv, getItem, hmiss]

/-- A transport failure on the oracle call propagates unchanged, after
the one lookup call of the iteration. -/
theorem waitLoop_oracleError (fuel li oi : Nat) (r : Response) (v : Value) (e : PyError)
    (hr : lookups li = .ok r) (hs : r.is_successful = true)
    (hv : validatedCheck r.result = false)
    (hlls : getItem r.result "LastLedgerSequence" = .ok v)
    (ho : oracle oi = .error e) :
    waitLoop lookups oracle (fuel + 1) li oi = ⟨.raised e, 1, 1⟩ := by
  simp only [waitLoop, hr, get_transaction_from_hash, hs, Bool.not_true, Bool.false_eq_true,
    if_false, hv, hlls, ho]

end StepLemmas

/-- C1 counterexample: the claim says that when the latest validated
height equals the transaction's expiry height the Resolver re-enters the
polling loop and does not declare Expired. On the code, with a pending
lookup response carrying `LastLedgerSequence = 100` and the oracle
reporting height 100, the very first iteration raises the Expired error
(the loop guard at reliable_submission.py line 52 is the strict
`last_ledger_sequence > latest_ledger_sequence`, so equality falls to
the `raise` at lines 56-59): one lookup call, one oracle call, no
re-entry. -/
theorem C1_counterexample :
    waitLoop (pendingTrace 100) (constOracle 100) 3 0 0 =
      ⟨.raised (expiredError 100 (Value.int 100)), 1, 1⟩ := by
  rfl

/-- C1 amended: in a polling iteration whose lookup response is not
validated and carries expiry height `lls`, the Resolver re-enters the
loop only when `lls` is strictly greater than the observed latest
height; otherwise — including when the two heights are exactly equal —
it declares the Expired outcome. -/
theorem C1_amended_expiry_boundary (lookups : Nat → Except PyError Response)
    (oracle : Nat → Except PyError Nat)
    (fuel li oi : Nat) (r : Response) (v : Value) (lls : Int) (latest : Nat)
    (hr : lookups li = .ok r) (hs : r.is_successful = true)
    (hv : validatedCheck r.result = false)
    (hlls : getItem r.result "LastLedgerSequence" = .ok v)
    (hint : asInt v = .ok lls)
    (ho : oracle oi = .ok latest) :
    waitLoop lookups oracle (fuel + 1) li oi =
      if lls > (latest : Int) then
        let w := waitLoop lookups oracle fuel (li + 1) (oi + 1)
        ⟨w.outcome, w.lookupCalls + 1, w.oracleCalls + 1⟩
      else ⟨.raised (expiredError latest v), 1, 1⟩ :=
  waitLoop_step fuel li oi r v lls latest hr hs hv hlls hint ho

/-- C1 witness: the amended boundary theorem instantiated at expiry
height 100 against oracle height 100 (the equality case: the Expired
branch of the characterization). -/
theorem C1_amended_expiry_boundary_witness :
    waitLoop (pendingTrace 100) (constOracle 100) 1 0 0 =
      if (100 : Int) > ((100 : Nat) : Int) then
        let w := waitLoop (pendingTrace 100) (constOracle 100) 0 1 1
        ⟨w.outcome, w.lookupCalls + 1, w.oracleCalls + 1⟩
      else ⟨.raised (expiredError 100 (Value.int 100)), 1, 1⟩ :=
  C1_amended_expiry_boundary (pendingTrace 100) (constOracle 100) 0 0 0
    (pendingResponse 100) (Value.int 100) 100 100 rfl rfl rfl rfl rfl rfl

/-- C5: in a polling iteration whose lookup response is not validated
and carries an expiry height, when the oracle's latest validated height
is greater than or equal to that expiry height the Resolver terminates
with the Expired failure, and the error message names both heights: the
observed latest height and the transaction's expiry height. -/
theorem C5_expired_names_both_heights (lookups : Nat → Except PyError Response)
    (oracle : Nat → Except PyError Nat)
    (fuel li oi : Nat) (r : Response) (v : Value) (lls : Int) (latest : Nat)
    (hr : lookups li = .ok r) (hs : r.is_successful = true)
    (hv : validatedCheck r.result = false)
    (hlls : getItem r.result "LastLedgerSequence" = .ok v)
    (hint : asInt v = .ok lls)
    (ho : oracle oi = .ok latest)
    (hge : (latest : Int) ≥ lls) :
    waitLoop lookups oracle (fuel + 1) li oi =
      ⟨.raised ⟨ExcClass.xrplReliableSubmission,
        "The latest ledger sequence " ++ toString latest ++
          " is greater than the last ledger sequence " ++ pyStr v ++
          " in the transaction."⟩, 1, 1⟩ := by
  rw [waitLoop_step fuel li oi r v lls latest hr hs hv hlls hint ho]
  rw [if_neg (by omega)]
  rfl

/-- C5 witness: expiry height 50 against oracle height 60 raises the
Expired error naming 60 and 50. -/
theorem C5_expired_names_both_heights_witness :
    waitLoop (pendingTrace 50) (constOracle 60) 1 0 0 =
      ⟨.raised ⟨ExcClass.xrplReliableSubmission,
        "The latest ledger sequence " ++ toString (60 : Nat) ++
          " is greater than the last ledger sequence " ++ pyStr (Value.int 50) ++
          " in the transaction."⟩, 1, 1⟩ :=
  C5_expired_names_both_heights (pendingTrace 50) (constOracle 60) 0 0 0
    (pendingResponse 50) (Value.int 50) 50 60 rfl rfl rfl rfl rfl rfl (by omega)

/-- C7: in a polling iteration whose lookup response is successful, not
validated, and omits `LastLedgerSequence`, the Resolver raises a
`KeyError` — an error of a class distinct from the
`XRPLReliableSubmissionException` used for the two domain outcomes — at
once, with no oracle call and no further polling (the result does not
depend on the remaining fuel), rather than returning success or
silently looping. -/
theorem C7_missing_expiry_raises_distinct_error (lookups : Nat → Except PyError Response)
    (oracle : Nat → Except PyError Nat)
    (fuel li oi : Nat) (r : Response)
    (hr : lookups li = .ok r) (hs : r.is_successful = true)
    (hv : validatedCheck r.result = false)
    (hmiss : dictGet? r.result "LastLedgerSequence" = none) :
    waitLoop lookups oracle (fuel + 1) li oi =
        ⟨.raised ⟨ExcClass.keyError, "LastLedgerSequence"⟩, 1, 0⟩
      ∧ ExcClass.keyError ≠ ExcClass.xrplReliableSubmission :=
  ⟨waitLoop_keyError fuel li oi r hr hs hv hmiss, by decide⟩

/-- C7 witness: the not-found response (successful, no fields) makes the
first iteration raise the `LastLedgerSequence` `KeyError`. -/
theorem C7_missing_expiry_raises_distinct_error_witness :
    waitLoop (fun _ => .ok notFoundResponse) (constOracle 10) 1 0 0 =
        ⟨.raised ⟨ExcClass.keyError, "LastLedgerSequence"⟩, 1, 0⟩
      ∧ ExcClass.keyError ≠ ExcClass.xrplReliableSubmission :=
  C7_missing_expiry_raises_distinct_error (fun _ => .ok notFoundResponse) (constOracle 10)
    0 0 0 notFoundResponse rfl rfl rfl rfl

/-- C2: the spec says the latest-ledger request shape requires no input;
on the code, `LedgerClosed` marks `ledger_hash` and `ledger_index` as
`REQUIRED` (ledger_closed.py lines 25-26), so constructing it with no
fields supplied fails validation and both fields are required
parameters — evaluating the construction at the failing input (no fields
supplied) exhibits the error. The claim matches the class's own
documentation (those identifiers are what the `ledger_closed` method
returns, not caller input), so the `REQUIRED` marks are the defect. -/
theorem C2_ledger_closed_requires_fields :
    constructLedgerClosed [] =
        .error ⟨ExcClass.xrplModel, "LedgerClosed: required field not set"⟩
      ∧ ledgerClosedRequiredFields ≠ [] :=
  ⟨rfl, by decide⟩

/-- C3: when the submit response carries a verdict tag different from
`"tesSUCCESS"`, `send_reliable_submission` raises the rejection error
built from that verdict code and its message after the single submit
call, with zero lookup calls and zero oracle calls — the Finality
Resolver is never invoked. -/
theorem C3_rejected_submit_no_polling (b : RunBehavior) (fuel : Nat) (sr : Response)
    (code msgv : Value)
    (hs : b.submit = .ok sr)
    (hcode : getItem sr.result "engine_result" = .ok code)
    (hne : code ≠ Value.str "tesSUCCESS")
    (hmsg : getItem sr.result "engine_result_message" = .ok msgv) :
    send_reliable_submission b fuel =
      ⟨.raised ⟨ExcClass.xrplReliableSubmission,
        "Transaction failed, " ++ pyStr code ++ ": " ++ pyStr msgv⟩, 1, 0, 0⟩ := by
  simp only [send_reliable_submission, hs, hcode, hmsg, if_pos hne]
  rfl

/-- C3 witness: a `tecUNFUNDED_PAYMENT` verdict raises the rejection
error naming the code and message, with no resolver calls. -/
theorem C3_rejected_submit_no_polling_witness :
    send_reliable_submission rejectedRun 4 =
      ⟨.raised ⟨ExcClass.xrplReliableSubmission,
        "Transaction failed, " ++ pyStr (Value.str "tecUNFUNDED_PAYMENT") ++ ": " ++
          pyStr (Value.str "Insufficient XRP balance to send.")⟩, 1, 0, 0⟩ :=
  C3_rejected_submit_no_polling rejectedRun 4 rejSubmitResponse
    (Value.str "tecUNFUNDED_PAYMENT") (Value.str "Insufficient XRP balance to send.")
    rfl rfl (by decide) rfl

/-- C4: when the submit verdict is `tesSUCCESS` and the very first
lookup response carries a `validated` flag equal to `True`,
`send_reliable_submission` finishes with that full lookup response after
exactly one submit call and one lookup call, and zero oracle calls. -/
theorem C4_first_poll_validated (b : RunBehavior) (fuel : Nat) (sr r : Response)
    (hs : b.submit = .ok sr)
    (hcode : getItem sr.result "engine_result" = .ok (Value.str "tesSUCCESS"))
    (hl : b.lookups 0 = .ok r) (hrs : r.is_successful = true)
    (hv : dictGet? r.result "validated" = some (Value.bool true)) :
    send_reliable_submission b (fuel + 1) = ⟨.finished r, 1, 1, 0⟩ := by
  have hvc : validatedCheck r.result = true := by
    simp only [validatedCheck, hv, truthy]
  simp only [send_reliable_submission, hs, hcode]
  rw [waitLoop_validated fuel 0 0 r hl hrs hvc, if_neg (by simp)]

/-- C4 witness: an accepted submit followed by a first lookup already
validated yields the response after one submit, one lookup and zero
oracle calls. -/
theorem C4_first_poll_validated_witness :
    send_reliable_submission validatedRun 1 = ⟨.finished scenarioValidatedResponse, 1, 1, 0⟩ :=
  C4_first_poll_validated validatedRun 0 okSubmitResponse scenarioValidatedResponse
    rfl rfl rfl rfl rfl

/-- C6 counterexample: on the spec's end-to-end scenario (lookups
not-found, not-found, validated with expiry 50; oracle heights 10, 20)
the claim expects 3 lookup calls, 2 oracle calls and a Validated
outcome. On the code, the very first not-found response — even granted
the spec's reading that it is a non-error response — carries no
`LastLedgerSequence`, so line 47 of reliable_submission.py raises
`KeyError` at once: the run performs exactly 1 lookup call and 0 oracle
calls and never reaches the Validated outcome. -/
theorem C6_counterexample :
    waitLoop scenarioLookups scenarioOracle 5 0 0 =
        ⟨.raised ⟨ExcClass.keyError, "LastLedgerSequence"⟩, 1, 0⟩
      ∧ (waitLoop scenarioLookups scenarioOracle 5 0 0).lookupCalls ≠ 3 :=
  ⟨rfl, by decide⟩

/-- C6 amended: a lookup response indicating the transaction is not yet
known is not a continue-polling outcome: since it carries neither the
`validated` flag nor `LastLedgerSequence`, the Resolver raises the
`LastLedgerSequence` `KeyError` in that very iteration, after one lookup
call and zero oracle calls, for any remaining fuel — so the scenario's
resolution fails at the first poll instead of reaching Validated. -/
theorem C6_amended_not_found_raises (lookups : Nat → Except PyError Response)
    (oracle : Nat → Except PyError Nat) (fuel li oi : Nat)
    (hr : lookups li = .ok notFoundResponse) :
    waitLoop lookups oracle (fuel + 1) li oi =
      ⟨.raised ⟨ExcClass.keyError, "LastLedgerSequence"⟩, 1, 0⟩ :=
  waitLoop_keyError fuel li oi notFoundResponse hr rfl rfl rfl

/-- C6 witness: the amended statement instantiated on the scenario's
first poll. -/
theorem C6_amended_not_found_raises_witness :
    waitLoop scenarioLookups scenarioOracle 1 0 0 =
      ⟨.raised ⟨ExcClass.keyError, "LastLedgerSequence"⟩, 1, 0⟩ :=
  C6_amended_not_found_raises scenarioLookups scenarioOracle 0 0 0 rfl

/-- C8: a transport failure raised by the network client during the
submit call, a lookup call, or an oracle call propagates to the caller
as exactly the same error value — not retried, not wrapped, and never
converted into the rejection or expiry domain outcomes. -/
theorem C8_transport_failures_propagate_unchanged :
    (∀ (b : RunBehavior) (fuel : Nat) (e : PyError), b.submit = .error e →
      send_reliable_submission b fuel = ⟨.raised e, 1, 0, 0⟩)
  ∧ (∀ (lookups : Nat → Except PyError Response) (oracle : Nat → Except PyError Nat)
      (fuel li oi : Nat) (e : PyError), lookups li = .error e →
      waitLoop lookups oracle (fuel + 1) li oi = ⟨.raised e, 1, 0⟩)
  ∧ (∀ (lookups : Nat → Except PyError Response) (oracle : Nat → Except PyError Nat)
      (fuel li oi : Nat) (r : Response) (v : Value) (e : PyError),
      lookups li = .ok r → r.is_successful = true → validatedCheck r.result = false →
      getItem r.result "LastLedgerSequence" = .ok v → oracle oi = .error e →
      waitLoop lookups oracle (fuel + 1) li oi = ⟨.raised e, 1, 1⟩) := by
  refine ⟨?_, ?_, ?_⟩
  · intro b fuel e he
    simp only [send_reliable_submission, he]
  · intro lookups oracle fuel li oi e he
    exact waitLoop_lookupError fuel li oi e he
  · intro lookups oracle fuel li oi r v e hr hs hv hlls ho
    exact waitLoop_oracleError fuel li oi r v e hr hs hv hlls ho

/-- C8 witness: one concrete transport failure at each of the three call
sites comes back verbatim. -/
theorem C8_transport_failures_propagate_unchanged_witness :
    send_reliable_submission submitFailRun 2 = ⟨.raised transportError, 1, 0, 0⟩
  ∧ waitLoop (fun _ => .error transportError) (constOracle 5) 1 0 0 =
      ⟨.raised transportError, 1, 0⟩
  ∧ waitLoop (pendingTrace 9) (fun _ => .error transportError) 1 0 0 =
      ⟨.raised transportError, 1, 1⟩ :=
  ⟨C8_transport_failures_propagate_unchanged.1 submitFailRun 2 transportError rfl,
   C8_transport_failures_propagate_unchanged.2.1 (fun _ => .error transportError)
     (constOracle 5) 0 0 0 transportError rfl,
   C8_transport_failures_propagate_unchanged.2.2 (pendingTrace 9)
     (fun _ => .error transportError) 0 0 0 (pendingResponse 9) (Value.int 9)
     transportError rfl rfl rfl rfl rfl⟩

/-- C9: when the transaction's expiry height is below the first height
the oracle reports (the current ledger height at submission time), the
lookups keep answering with the still-pending response, and the oracle's
heights are strictly increasing, the Resolver terminates with the
Expired outcome in its first iteration — for every amount of fuel, so
the recursion never continues past it and the loop cannot run
indefinitely. -/
theorem C9_below_expiry_terminates (lookups : Nat → Except PyError Response)
    (oracle : Nat → Except PyError Nat) (h : Nat → Nat) (expiry : Int)
    (hlook : ∀ n, lookups n = .ok (pendingResponse expiry))
    (horacle : ∀ n, oracle n = .ok (h n))
    (hmono : ∀ n, h n < h (n + 1))
    (hbelow : expiry < (h 0 : Int)) :
    ∀ fuel : Nat, waitLoop lookups oracle (fuel + 1) 0 0 =
      ⟨.raised (expiredError (h 0) (Value.int expiry)), 1, 1⟩ := by
  intro fuel
  rw [waitLoop_step fuel 0 0 (pendingResponse expiry) (Value.int expiry) expiry (h 0)
    (hlook 0) rfl rfl rfl rfl (horacle 0)]
  rw [if_neg (by omega)]

/-- C9 witness: expiry height 40 against the strictly increasing oracle
heights 50, 51, 52, ... expires in the first iteration. -/
theorem C9_below_expiry_terminates_witness :
    waitLoop (pendingTrace 40) risingOracle 1 0 0 =
      ⟨.raised (expiredError 50 (Value.int 40)), 1, 1⟩ :=
  C9_below_expiry_terminates (pendingTrace 40) risingOracle (fun n => 50 + n) 40
    (fun _ => rfl) (fun _ => rfl) (fun n => Nat.add_lt_add_left (Nat.lt_succ_self n) 50)
    (by decide) 0

/-- C10: the three failure kinds are distinguishable from the error
value alone: `classifyError` maps every rejection error (as built at the
submit check) to Submission Rejected, every expiry error (as built in
the polling loop) to Resolution Expired, and every error whose class is
not `XRPLReliableSubmissionException` — in particular any transport
failure propagated from the network client — to Infrastructure
Failure. -/
theorem C10_outcomes_distinguishable :
    (∀ code msgv : Value,
      classifyError (rejectedError code msgv) = ErrorKind.submissionRejected)
  ∧ (∀ (latest : Nat) (v : Value),
      classifyError (expiredError latest v) = ErrorKind.resolutionExpired)
  ∧ (∀ e : PyError, e.cls ≠ ExcClass.xrplReliableSubmission →
      classifyError e = ErrorKind.infrastructure) := by
  refine ⟨?_, ?_, ?_⟩
  · intro code msgv
    have h1 : ("Transaction failed, " ++ pyStr code ++ ": " ++ pyStr msgv).data[1]? =
        some 'r' := by
      simp only [String.data_append, List.append_assoc]
      rw [List.getElem?_append_left (by decide)]
      rfl
    simp only [classifyError, rejectedError, h1, if_pos rfl]
    rfl
  · intro latest v
    have h2 : (expiredError latest v).msg.data[1]? = some 'h' := by
      show ("The latest ledger sequence " ++ toString latest ++
        " is greater than the last ledger sequence " ++ pyStr v ++
        " in the transaction.").data[1]? = some 'h'
      simp only [String.data_append, List.append_assoc]
      rw [List.getElem?_append_left (by decide)]
      rfl
    have hne : ¬ (expiredError latest v).msg.data[1]? = some 'r' := by
      rw [h2]; decide
    have hc : (expiredError latest v).cls = ExcClass.xrplReliableSubmission := rfl
    unfold classifyError
    rw [if_pos hc, if_neg hne]
  · intro e he
    simp only [classifyError, if_neg he]

/-- C10 witness: one error of each kind classifies correctly. -/
theorem C10_outcomes_distinguishable_witness :
    classifyError (rejectedError (Value.str "tecUNFUNDED_PAYMENT")
        (Value.str "Insufficient XRP balance to send.")) = ErrorKind.submissionRejected
  ∧ classifyError (expiredError 60 (Value.int 50)) = ErrorKind.resolutionExpired
  ∧ classifyError transportError = ErrorKind.infrastructure :=
  ⟨C10_outcomes_distinguishable.1 (Value.str "tecUNFUNDED_PAYMENT")
      (Value.str "Insufficient XRP balance to send."),
   C10_outcomes_distinguishable.2.1 60 (Value.int 50),
   C10_outcomes_distinguishable.2.2 transportError (by decide)⟩

end ReliableSubmission
